import Mathlib

/-!
Shallow embedding of the xtop application core (src/app.rs, src/sys_info.rs,
src/main.rs) and verification of its specification claims.

Modelling conventions:
* `u64`/`usize` values are modelled as `Nat`; `i64` intermediates as `Int`.
  All arithmetic in the embedded code is range-checked by explicit `clamp`
  calls or stays far below `2^63`, so no wrap-around modelling is needed;
  where a Rust operation could underflow (for example `len() - 1` on an
  empty vector, which panics in debug builds), the theorems carry the
  non-emptiness hypothesis under which `Nat` subtraction agrees with Rust.
* `Duration` and `Instant` are modelled as `Nat` nanosecond counts.
  `Instant::duration_since` saturates at zero for an earlier instant,
  exactly like `Nat` subtraction.
* `f64` fields (`cpu_usage`, temperatures, load averages) are modelled as
  `ℚ`. The program only adds, clamps and compares these values, all of
  which agree with the rational operations for the non-NaN values the
  program produces.
* The random number generator is modelled as an `Oracle` of arbitrary
  values supplied to a tick; every theorem quantifies over the oracle.
-/

namespace XTop

/-- View enumeration from src/app.rs. -/
inductive View where
  | System
  | Process
  | Resources
  | Network
  | Disks
  | Options
deriving DecidableEq

/-- ProcessSort enumeration from src/sys_info.rs. -/
inductive ProcessSort where
  | Pid
  | Name
  | Cpu
  | Memory
  | User
  | Time
  | Threads
  | State
deriving DecidableEq

/-- ProcessState enumeration from src/sys_info.rs. -/
inductive ProcessState where
  | Running
  | Sleeping
  | Waiting
  | Zombie
  | Stopped
  | Tracing
  | Dead
  | Wakekill
  | Waking
  | Parked
  | Idle
deriving DecidableEq

/-- The Display implementation for ProcessState (src/sys_info.rs). -/
def ProcessState.toString : ProcessState → String
  | .Running => "R"
  | .Sleeping => "S"
  | .Waiting => "D"
  | .Zombie => "Z"
  | .Stopped => "T"
  | .Tracing => "t"
  | .Dead => "X"
  | .Wakekill => "K"
  | .Waking => "W"
  | .Parked => "P"
  | .Idle => "I"

/-- ProcessInfo record from src/sys_info.rs. Durations are nanoseconds. -/
structure ProcessInfo where
  pid : Nat
  ppid : Nat
  name : String
  command : String
  full_command : String
  user : String
  cpu_usage : ℚ
  memory_usage : Nat
  memory_percent : ℚ
  state : ProcessState
  priority : Int
  nice : Int
  threads : Nat
  start_time : String
  uptime : Nat
  read_speed : Nat
  write_speed : Nat
deriving DecidableEq

/-- DiskInfo record from src/sys_info.rs. -/
structure DiskInfo where
  name : String
  mount_point : String
  total : Nat
  used : Nat
  free : Nat
  usage : Nat
  read_speed : Nat
  write_speed : Nat
  device_type : String
deriving DecidableEq

/-- NetworkInterface record from src/sys_info.rs. -/
structure NetworkInterface where
  name : String
  rx_bytes : Nat
  tx_bytes : Nat
  rx_speed : Nat
  tx_speed : Nat
  ip_address : String
  mac_address : String
  status : String
deriving DecidableEq

/-- LoadAverage record from src/sys_info.rs. -/
structure LoadAverage where
  one : ℚ
  five : ℚ
  fifteen : ℚ
deriving DecidableEq

/-- SystemInfo record from src/sys_info.rs. -/
structure SystemInfo where
  hostname : String
  kernel_version : String
  os_name : String
  uptime : Nat
  cpu_count : Nat
  cpu_usage_per_core : List Nat
  cpu_total_usage : Nat
  cpu_frequency : Nat
  cpu_temperature : ℚ
  cpu_model : String
  memory_total : Nat
  memory_used : Nat
  memory_free : Nat
  memory_available : Nat
  memory_cached : Nat
  memory_buffers : Nat
  swap_total : Nat
  swap_used : Nat
  swap_free : Nat
  disks : List DiskInfo
  network_interfaces : List NetworkInterface
  total_rx : Nat
  total_tx : Nat
  processes : List ProcessInfo
  process_count : Nat
  thread_count : Nat
  cpu_history : List Nat
  memory_history : List Nat
  net_rx_history : List Nat
  net_tx_history : List Nat
  load_average : LoadAverage
  last_update : Nat
deriving DecidableEq

/-- App state from src/app.rs. `update_interval` and `last_update` are in
nanoseconds. -/
structure App where
  current_view : View
  metrics : SystemInfo
  scroll_offset : Nat
  process_scroll_offset : Nat
  selected_process : Nat
  show_help : Bool
  paused : Bool
  update_interval : Nat
  last_update : Nat
  process_sort : ProcessSort
  sort_reverse : Bool
  show_full_command : Bool
  show_tree_view : Bool
  show_proc_details : Bool
  proc_aggregated : Bool
  max_processes : Nat
deriving DecidableEq

/-- The sample process table built by generate_sample_processes
(src/sys_info.rs): each tuple (name, pid, ppid, user, cpu, memory, state)
is expanded with the index-derived fields of the loop body. -/
def generate_sample_processes : List ProcessInfo :=
  let sample : List (String × Nat × Nat × String × ℚ × Nat × ProcessState) :=
    [("systemd", 1, 0, "root", 15/10, 200, .Sleeping),
     ("NetworkManager", 1234, 1, "root", 23/10, 45, .Sleeping),
     ("gnome-shell", 2345, 1, "user", 125/10, 356, .Running),
     ("firefox", 3456, 2345, "user", 248/10, 1240, .Running),
     ("code", 4567, 2345, "user", 182/10, 890, .Running),
     ("docker", 5678, 1, "root", 35/10, 345, .Sleeping),
     ("postgres", 6789, 1, "postgres", 78/10, 456, .Sleeping),
     ("nginx", 7890, 1, "www-data", 12/10, 89, .Sleeping),
     ("redis", 8901, 1, "redis", 25/10, 123, .Sleeping),
     ("python3", 9012, 3456, "user", 153/10, 234, .Running)]
  (List.range sample.length).zip sample |>.map fun (i, name, pid, ppid, user, cpu, memory, state) =>
    { pid := pid
      ppid := ppid
      name := name
      command := "/usr/bin/" ++ name.toLower
      full_command := "/usr/bin/" ++ name.toLower ++ " --some-flag"
      user := user
      cpu_usage := cpu
      memory_usage := memory
      memory_percent := (memory : ℚ) / 16384 * 100
      state := state
      priority := 20
      nice := 0
      threads := (i + 1) * 2
      start_time := "10:30:15"
      uptime := 3600 * i * 1000000000
      read_speed := (i * 10) % 100
      write_speed := (i * 5) % 50 }

/-- Default SystemInfo (src/sys_info.rs). `Instant::now()` at construction
is modelled as time 0. -/
def SystemInfo.default : SystemInfo :=
  { hostname := "localhost"
    kernel_version := "5.15.0"
    os_name := "Linux"
    uptime := 87400 * 1000000000
    cpu_count := 8
    cpu_usage_per_core := (List.range 8).map fun i => min (20 + i * 5) 100
    cpu_total_usage := 45
    cpu_frequency := 3600
    cpu_temperature := 655/10
    cpu_model := "Intel Core i7-12700K"
    memory_total := 16384
    memory_used := 8192
    memory_free := (16384 - 8192) / 2
    memory_available := 16384 - 8192
    memory_cached := 2048
    memory_buffers := 512
    swap_total := 8192
    swap_used := 1024
    swap_free := 8192 - 1024
    disks :=
      [{ name := "nvme0n1", mount_point := "/", total := 512, used := 256,
         free := 256, usage := 50, read_speed := 120, write_speed := 45,
         device_type := "NVMe" },
       { name := "sda", mount_point := "/home", total := 1024, used := 512,
         free := 512, usage := 50, read_speed := 45, write_speed := 23,
         device_type := "SSD" }]
    network_interfaces :=
      [{ name := "eth0", rx_bytes := 1024 * 1024 * 1024,
         tx_bytes := 512 * 1024 * 1024, rx_speed := 1200, tx_speed := 450,
         ip_address := "192.168.1.100", mac_address := "00:11:22:33:44:55",
         status := "up" }]
    total_rx := 1200
    total_tx := 450
    processes := generate_sample_processes
    process_count := 150
    thread_count := 1200
    cpu_history := [45, 50, 55, 60, 65, 70, 65, 60, 55, 50, 45, 40]
    memory_history := [50, 52, 54, 56, 58, 60, 62, 64, 66, 68, 70, 72]
    net_rx_history := [800, 850, 900, 950, 1000, 1050, 1100, 1150, 1200]
    net_tx_history := [300, 325, 350, 375, 400, 425, 450, 475, 500]
    load_average := { one := 125/100, five := 185/100, fifteen := 215/100 }
    last_update := 0 }

/-- Default App (src/app.rs). `Instant::now()` at construction is modelled
as time 0; `Duration::from_millis(1000)` is 10^9 nanoseconds. -/
def App.default : App :=
  { current_view := .System
    metrics := SystemInfo.default
    scroll_offset := 0
    process_scroll_offset := 0
    selected_process := 0
    show_help := false
    paused := false
    update_interval := 1000000000
    last_update := 0
    process_sort := .Cpu
    sort_reverse := true
    show_full_command := false
    show_tree_view := false
    show_proc_details := false
    proc_aggregated := false
    max_processes := 20 }

/-- App::reset_selection (src/app.rs). -/
def App.reset_selection (s : App) : App :=
  { s with selected_process := 0, process_scroll_offset := 0, show_proc_details := false }

/-- App::cycle_view (src/app.rs). -/
def App.cycle_view (s : App) : App :=
  let v : View :=
    match s.current_view with
    | .System => .Process
    | .Process => .Resources
    | .Resources => .Network
    | .Network => .Disks
    | .Disks => .Options
    | .Options => .System
  App.reset_selection { s with current_view := v }

/-- Direct numeric-key view selection from run_app (src/main.rs): keys 1-5
execute `app.current_view = app::View::X` and nothing else. -/
def selectView (v : View) (s : App) : App :=
  { s with current_view := v }

/-- App::scroll_down (src/app.rs). The guard compares against
`processes.len() - 1`, whose `usize` subtraction panics in debug builds on
an empty list; the `Nat` model agrees with Rust whenever the list is
non-empty, and theorems about this operation assume that. -/
def App.scroll_down (s : App) : App :=
  match s.current_view with
  | .Process =>
      if s.selected_process < s.metrics.processes.length - 1 then
        let sel := s.selected_process + 1
        if s.process_scroll_offset + s.max_processes ≤ sel then
          { s with selected_process := sel,
                   process_scroll_offset := s.process_scroll_offset + 1 }
        else
          { s with selected_process := sel }
      else s
  | _ => { s with scroll_offset := s.scroll_offset + 1 }

/-- App::scroll_up (src/app.rs). `saturating_sub` is `Nat` subtraction. -/
def App.scroll_up (s : App) : App :=
  match s.current_view with
  | .Process =>
      if 0 < s.selected_process then
        let sel := s.selected_process - 1
        if sel < s.process_scroll_offset then
          { s with selected_process := sel,
                   process_scroll_offset := s.process_scroll_offset - 1 }
        else
          { s with selected_process := sel }
      else s
  | _ => { s with scroll_offset := s.scroll_offset - 1 }

/-- App::scroll_page_down (src/app.rs). Uses `len() - 1` like scroll_down,
so the model assumes a non-empty list. -/
def App.scroll_page_down (s : App) : App :=
  match s.current_view with
  | .Process =>
      { s with
        selected_process :=
          min (s.selected_process + s.max_processes) (s.metrics.processes.length - 1),
        process_scroll_offset :=
          min (s.process_scroll_offset + s.max_processes)
            (s.metrics.processes.length - s.max_processes) }
  | _ => { s with scroll_offset := s.scroll_offset + 10 }

/-- App::scroll_page_up (src/app.rs). -/
def App.scroll_page_up (s : App) : App :=
  match s.current_view with
  | .Process =>
      { s with
        selected_process := s.selected_process - s.max_processes,
        process_scroll_offset := s.process_scroll_offset - s.max_processes }
  | _ => { s with scroll_offset := s.scroll_offset - 10 }

/-- App::scroll_top (src/app.rs). -/
def App.scroll_top (s : App) : App :=
  match s.current_view with
  | .Process => { s with selected_process := 0, process_scroll_offset := 0 }
  | _ => { s with scroll_offset := 0 }

/-- App::scroll_bottom (src/app.rs). `len() - 1` again assumes a non-empty
list; the offset uses `saturating_sub`, which is `Nat` subtraction. -/
def App.scroll_bottom (s : App) : App :=
  match s.current_view with
  | .Process =>
      { s with
        selected_process := s.metrics.processes.length - 1,
        process_scroll_offset := s.metrics.processes.length - s.max_processes }
  | _ => s

/-- App::toggle_pause (src/app.rs). -/
def App.toggle_pause (s : App) : App :=
  { s with paused := !s.paused }

/-- App::toggle_help (src/app.rs). -/
def App.toggle_help (s : App) : App :=
  { s with show_help := !s.show_help }

/-- App::toggle_process_details (src/app.rs). -/
def App.toggle_process_details (s : App) : App :=
  { s with show_proc_details := !s.show_proc_details }

/-- App::toggle_full_command (src/app.rs). -/
def App.toggle_full_command (s : App) : App :=
  { s with show_full_command := !s.show_full_command }

/-- App::toggle_tree_view (src/app.rs). -/
def App.toggle_tree_view (s : App) : App :=
  { s with show_tree_view := !s.show_tree_view }

/-- App::toggle_proc_aggregation (src/app.rs). -/
def App.toggle_proc_aggregation (s : App) : App :=
  { s with proc_aggregated := !s.proc_aggregated }

/-- App::increase_update_delay (src/app.rs): double, capped at 10 s. -/
def App.increase_update_delay (s : App) : App :=
  { s with update_interval := min (s.update_interval * 2) 10000000000 }

/-- App::decrease_update_delay (src/app.rs): halve, floored at 250 ms.
Duration division is exact at nanosecond granularity, i.e. `Nat` division
of the nanosecond count. -/
def App.decrease_update_delay (s : App) : App :=
  { s with update_interval := max (s.update_interval / 2) 250000000 }

/-- Boolean "not greater" relation of the comparator App::sort_processes
uses for each sort key (src/app.rs). Rust `sort_by` is a stable sort by
this (total, transitive) relation, and the stable sort of a list by a
total preorder is unique, so any stable sorting algorithm models it
faithfully; the embedding uses `List.insertionSort`, which is stable. For
the Cpu key the comparator is
`b.cpu_usage.partial_cmp(&a.cpu_usage).unwrap()`: the cpu_usage values the
program produces are never NaN, so partial_cmp agrees with the rational
order. String comparison in Rust is byte-lexicographic, which agrees with
the character-lexicographic Lean order on the ASCII strings this program
builds. -/
def procLE (key : ProcessSort) (a b : ProcessInfo) : Bool :=
  match key with
  | .Pid => a.pid ≤ b.pid
  | .Name => a.name ≤ b.name
  | .Cpu => b.cpu_usage ≤ a.cpu_usage
  | .Memory => b.memory_usage ≤ a.memory_usage
  | .User => a.user ≤ b.user
  | .Time => b.uptime ≤ a.uptime
  | .Threads => b.threads ≤ a.threads
  | .State => a.state.toString ≤ b.state.toString

/-- The list transformation App::sort_processes applies to
`metrics.processes`: stable sort by the key comparator, then reverse the
whole list iff `sort_reverse` is false (src/app.rs). -/
def sortedProcs (key : ProcessSort) (rev : Bool) (l : List ProcessInfo) :
    List ProcessInfo :=
  let m := l.insertionSort (fun a b => procLE key a b = true)
  if !rev then m.reverse else m

/-- App::sort_processes (src/app.rs). -/
def App.sort_processes (s : App) : App :=
  { s with metrics :=
      { s.metrics with
        processes := sortedProcs s.process_sort s.sort_reverse s.metrics.processes } }

/-- App::change_sort_column (src/app.rs). -/
def App.change_sort_column (s : App) (sort : ProcessSort) : App :=
  let s1 :=
    if s.process_sort = sort then
      { s with sort_reverse := !s.sort_reverse }
    else
      { s with process_sort := sort,
               sort_reverse := sort = ProcessSort.Cpu ∨ sort = ProcessSort.Memory }
  (App.sort_processes s1).reset_selection

/-- Random values consumed by one call of App::update_metrics. Indexed
values are per core or per process. `coreChange`, `memChange` and
`procMemChange` model `rand::random::<u64>()` before the `% n` reduction
in the source; `rxRand` and `txRand` model `rand::random::<i64>()`;
`procCpuChange` models `rand::random::<f64>() % 5.0`. -/
structure Oracle where
  coreChange : Nat → Nat
  coreUp : Nat → Bool
  memChange : Nat
  memUp : Bool
  rxRand : Int
  txRand : Int
  procCpuChange : Nat → ℚ
  procCpuUp : Nat → Bool
  procMemChange : Nat → Nat
  procMemUp : Nat → Bool

/-- Rust `i64::clamp(lo, hi)` for `lo ≤ hi`. -/
def clampInt (x lo hi : Int) : Int :=
  max lo (min x hi)

/-- Rust `f64::clamp(lo, hi)` on non-NaN values. -/
def clampRat (x lo hi : ℚ) : ℚ :=
  max lo (min x hi)

/-- Index-carrying map, modelling the `for` loops of App::update_metrics
that consult the random oracle at each element. -/
def mapIdxFrom (f : Nat → α → β) : Nat → List α → List β
  | _, [] => []
  | i, a :: l => f i a :: mapIdxFrom f (i + 1) l

/-- App::update_metrics (src/app.rs), with the current time and the random
oracle as explicit inputs. Notes on exactness:
* the gate `Instant::now().duration_since(self.last_update)` saturates at
  zero, exactly like `Nat` subtraction;
* the two `Instant::now()` calls of the source are identified as `now`;
* `cpu_usage_per_core.iter().sum() / cpu_count` is `Nat` division
  (cpu_count is 8 and never changes, so the Rust division never panics);
* the memory percentage `(used as f64 / total as f64 * 100.0) as u64` is
  exact binary arithmetic for every reachable value (total is the constant
  16384 = 2^14 and used ≤ total, so used/total*100 needs at most 21
  significand bits) and the `as u64` truncation is the floor, i.e. `Nat`
  division `used * 100 / total`;
* `%` on i64 is truncated remainder, `Int.tmod`. -/
def App.update_metrics (now : Nat) (o : Oracle) (s : App) : App :=
  if s.paused || now - s.last_update < s.update_interval then s
  else
    let cores := mapIdxFrom (fun i u =>
      let change := o.coreChange i % 10
      let dir : Int := if o.coreUp i then 1 else -1
      (clampInt ((u : Int) + (change : Int) * dir) 0 100).toNat) 0
      s.metrics.cpu_usage_per_core
    let cpu_total := cores.sum / s.metrics.cpu_count
    let mem_dir : Int := if o.memUp then 1 else -1
    let mem_used := (clampInt ((s.metrics.memory_used : Int) +
      ((o.memChange % 50 : Nat) : Int) * mem_dir) 0 (s.metrics.memory_total : Int)).toNat
    let rx := (clampInt ((s.metrics.total_rx : Int) + o.rxRand.tmod 200 - 100) 0 5000).toNat
    let tx := (clampInt ((s.metrics.total_tx : Int) + o.txRand.tmod 100 - 50) 0 2500).toNat
    let mem_percent := mem_used * 100 / s.metrics.memory_total
    let procs := mapIdxFrom (fun i p =>
      let cpu_dir : ℚ := if o.procCpuUp i then 1 else -1
      let pm_dir : Int := if o.procMemUp i then 1 else -1
      { p with
        cpu_usage := clampRat (p.cpu_usage + o.procCpuChange i * cpu_dir) 0 100,
        memory_usage := (clampInt ((p.memory_usage : Int) +
          ((o.procMemChange i % 10 : Nat) : Int) * pm_dir) 0 2000).toNat }) 0
      s.metrics.processes
    App.sort_processes
      { s with
        last_update := now,
        metrics :=
          { s.metrics with
            cpu_usage_per_core := cores,
            cpu_total_usage := cpu_total,
            memory_used := mem_used,
            total_rx := rx,
            total_tx := tx,
            cpu_history := s.metrics.cpu_history.tail ++ [cpu_total],
            memory_history := s.metrics.memory_history.tail ++ [mem_percent],
            net_rx_history := s.metrics.net_rx_history.tail ++ [rx],
            net_tx_history := s.metrics.net_tx_history.tail ++ [tx],
            processes := procs } }

/-- The scroll operations of the Process view, as an alphabet for stating
invariants over arbitrary operation sequences. -/
inductive ScrollOp where
  | down
  | up
  | pageDown
  | pageUp
  | top
  | bottom
deriving DecidableEq

/-- Dispatch one scroll operation. -/
def applyScroll : ScrollOp → App → App
  | .down, s => s.scroll_down
  | .up, s => s.scroll_up
  | .pageDown, s => s.scroll_page_down
  | .pageUp, s => s.scroll_page_up
  | .top, s => s.scroll_top
  | .bottom, s => s.scroll_bottom

/-- Apply a sequence of scroll operations in order. -/
def applyScrollSeq (ops : List ScrollOp) (s : App) : App :=
  ops.foldl (fun t op => applyScroll op t) s

/-- Apply a sequence of ticks, each with its own time and oracle. -/
def applyTicks (ticks : List (Nat × Oracle)) (s : App) : App :=
  ticks.foldl (fun t tk => App.update_metrics tk.1 tk.2 t) s

/-- Apply a sequence of interval adjustments: `true` is
increase_update_delay, `false` is decrease_update_delay. -/
def applyDelays (bs : List Bool) (s : App) : App :=
  bs.foldl (fun t b => if b then t.increase_update_delay else t.decrease_update_delay) s

/-- The selection/scroll invariant of the Process view: selection in
bounds, offset within the scrollable range, and the selection inside the
viewport window. `Nat` subtraction makes
`length - max_processes` equal to `max(0, L - V)`. -/
def ScrollInv (s : App) : Prop :=
  s.selected_process < s.metrics.processes.length ∧
  s.process_scroll_offset ≤ s.metrics.processes.length - s.max_processes ∧
  s.process_scroll_offset ≤ s.selected_process ∧
  s.selected_process < s.process_scroll_offset + s.max_processes

instance (s : App) : Decidable (ScrollInv s) := by
  unfold ScrollInv
  infer_instance

/-! Helper lemmas. -/

theorem length_mapIdxFrom (f : Nat → α → β) :
    ∀ (i : Nat) (l : List α), (mapIdxFrom f i l).length = l.length := by
  intro i l
  induction l generalizing i with
  | nil => rfl
  | cons a l ih => simp [mapIdxFrom, ih]

theorem mem_mapIdxFrom {f : Nat → α → β} {b : β} :
    ∀ {i : Nat} {l : List α}, b ∈ mapIdxFrom f i l → ∃ j a, a ∈ l ∧ b = f j a := by
  intro i l
  induction l generalizing i with
  | nil => intro h; cases h
  | cons a l ih =>
      intro h
      rcases h with _ | ⟨_, h⟩
      · exact ⟨i, a, List.mem_cons_self a l, rfl⟩
      · obtain ⟨j, c, hc, hb⟩ := ih h
        exact ⟨j, c, List.mem_cons_of_mem a hc, hb⟩

theorem length_sortedProcs (key : ProcessSort) (rev : Bool) (l : List ProcessInfo) :
    (sortedProcs key rev l).length = l.length := by
  unfold sortedProcs
  split <;> simp [List.length_insertionSort]

theorem mem_sortedProcs {key : ProcessSort} {rev : Bool} {l : List ProcessInfo}
    {p : ProcessInfo} : p ∈ sortedProcs key rev l ↔ p ∈ l := by
  unfold sortedProcs
  split <;> simp [List.mem_insertionSort]

/-! Theorems for the specification claims. -/

/-- C9: each toggle operation (toggle_pause, toggle_help,
toggle_process_details, toggle_full_command, toggle_tree_view,
toggle_proc_aggregation) negates exactly its own boolean flag and leaves
every other field of App unchanged — expressed by the record-update
equation — and applying the same toggle twice restores the original
state. -/
theorem toggles_negate_own_flag_and_involutive (s : App) :
    (s.toggle_pause = { s with paused := !s.paused } ∧
      s.toggle_pause.toggle_pause = s) ∧
    (s.toggle_help = { s with show_help := !s.show_help } ∧
      s.toggle_help.toggle_help = s) ∧
    (s.toggle_process_details = { s with show_proc_details := !s.show_proc_details } ∧
      s.toggle_process_details.toggle_process_details = s) ∧
    (s.toggle_full_command = { s with show_full_command := !s.show_full_command } ∧
      s.toggle_full_command.toggle_full_command = s) ∧
    (s.toggle_tree_view = { s with show_tree_view := !s.show_tree_view } ∧
      s.toggle_tree_view.toggle_tree_view = s) ∧
    (s.toggle_proc_aggregation = { s with proc_aggregated := !s.proc_aggregated } ∧
      s.toggle_proc_aggregation.toggle_proc_aggregation = s) := by
  refine ⟨⟨rfl, ?_⟩, ⟨rfl, ?_⟩, ⟨rfl, ?_⟩, ⟨rfl, ?_⟩, ⟨rfl, ?_⟩, ⟨rfl, ?_⟩⟩ <;>
    simp [App.toggle_pause, App.toggle_help, App.toggle_process_details,
      App.toggle_full_command, App.toggle_tree_view, App.toggle_proc_aggregation]

/-- C5 counterexample: a state with a nonzero selection, nonzero scroll
offset and an open detail overlay, on which a direct numeric-key view
selection (modelled exactly as run_app handles the keys 1-5) changes only
current_view: selection, offset and overlay all survive, so the claim that
every view transition resets them is false. -/
theorem selectView_does_not_reset :
    (selectView View.Process
        { App.default with selected_process := 3, process_scroll_offset := 2,
                           show_proc_details := true }).selected_process = 3 ∧
    (selectView View.Process
        { App.default with selected_process := 3, process_scroll_offset := 2,
                           show_proc_details := true }).process_scroll_offset = 2 ∧
    (selectView View.Process
        { App.default with selected_process := 3, process_scroll_offset := 2,
                           show_proc_details := true }).show_proc_details = true :=
  ⟨rfl, rfl, rfl⟩

/-- C5 (amended): cycle_view resets selected_process to 0,
process_scroll_offset to 0 and closes the detail overlay, while a direct
numeric-key view selection sets current_view and leaves selection, offset
and the detail overlay unchanged. -/
theorem view_transition_reset (s : App) (v : View) :
    (s.cycle_view.selected_process = 0 ∧
      s.cycle_view.process_scroll_offset = 0 ∧
      s.cycle_view.show_proc_details = false) ∧
    ((selectView v s).current_view = v ∧
      (selectView v s).selected_process = s.selected_process ∧
      (selectView v s).process_scroll_offset = s.process_scroll_offset ∧
      (selectView v s).show_proc_details = s.show_proc_details) :=
  ⟨⟨rfl, rfl, rfl⟩, ⟨rfl, rfl, rfl, rfl⟩⟩

/-- C6: change_sort_column(key) flips sort_reverse when key equals the
current sort key, otherwise sets key with default direction true exactly
for Cpu and Memory; in every case it re-sorts the process list and resets
selection, offset and the detail overlay; concretely, from
(key = Cpu, reverse = true), selecting Pid gives (Pid, false) and
selecting Pid again gives (Pid, true). -/
theorem change_sort_column_spec (s : App) (key : ProcessSort) :
    ((s.change_sort_column key).process_sort = key ∧
      (s.change_sort_column key).sort_reverse =
        (if s.process_sort = key then !s.sort_reverse
         else decide (key = ProcessSort.Cpu ∨ key = ProcessSort.Memory)) ∧
      (s.change_sort_column key).selected_process = 0 ∧
      (s.change_sort_column key).process_scroll_offset = 0 ∧
      (s.change_sort_column key).show_proc_details = false ∧
      (s.change_sort_column key).metrics.processes =
        sortedProcs key
          (if s.process_sort = key then !s.sort_reverse
           else decide (key = ProcessSort.Cpu ∨ key = ProcessSort.Memory))
          s.metrics.processes) ∧
    (s.process_sort = ProcessSort.Cpu → s.sort_reverse = true →
      (s.change_sort_column ProcessSort.Pid).process_sort = ProcessSort.Pid ∧
      (s.change_sort_column ProcessSort.Pid).sort_reverse = false ∧
      ((s.change_sort_column ProcessSort.Pid).change_sort_column
          ProcessSort.Pid).process_sort = ProcessSort.Pid ∧
      ((s.change_sort_column ProcessSort.Pid).change_sort_column
          ProcessSort.Pid).sort_reverse = true) := by
  constructor
  · by_cases h : s.process_sort = key <;>
      simp [App.change_sort_column, App.sort_processes, App.reset_selection, h]
  · intro hc hr
    have hne : s.process_sort ≠ ProcessSort.Pid := by rw [hc]; decide
    simp [App.change_sort_column, App.sort_processes, App.reset_selection, hne, hr]

/-- C6 witness: the default state has sort key Cpu with reverse = true;
selecting Pid yields (Pid, false) and selecting Pid again yields
(Pid, true). -/
theorem change_sort_column_spec_witness :
    App.default.process_sort = ProcessSort.Cpu ∧ App.default.sort_reverse = true ∧
    (App.default.change_sort_column ProcessSort.Pid).process_sort = ProcessSort.Pid ∧
    (App.default.change_sort_column ProcessSort.Pid).sort_reverse = false ∧
    ((App.default.change_sort_column ProcessSort.Pid).change_sort_column
        ProcessSort.Pid).sort_reverse = true := by
  have h := (change_sort_column_spec App.default ProcessSort.Pid).2 rfl rfl
  exact ⟨rfl, rfl, h.1, h.2.1, h.2.2.2⟩

/-- C8: increase_update_delay doubles the interval capped at 10 s and
decrease_update_delay halves it floored at 250 ms, so any adjustment
sequence keeps the interval inside [250 ms, 10 s]; from 1000 ms, five
increases give exactly 10 s, and any number of decreases stays at or above
250 ms. Times are nanoseconds. -/
theorem update_interval_bounds (s : App)
    (h : 250000000 ≤ s.update_interval ∧ s.update_interval ≤ 10000000000) :
    (∀ bs : List Bool,
      250000000 ≤ (applyDelays bs s).update_interval ∧
        (applyDelays bs s).update_interval ≤ 10000000000) ∧
    (s.update_interval = 1000000000 →
      (applyDelays [true, true, true, true, true] s).update_interval = 10000000000 ∧
      ∀ n : Nat,
        250000000 ≤ (applyDelays (List.replicate n false) s).update_interval) := by
  have step : ∀ (t : App), 250000000 ≤ t.update_interval → t.update_interval ≤ 10000000000 →
      ∀ b : Bool,
        250000000 ≤ ((if b then t.increase_update_delay else t.decrease_update_delay) : App).update_interval ∧
        ((if b then t.increase_update_delay else t.decrease_update_delay) : App).update_interval ≤ 10000000000 := by
    intro t h1 h2 b
    cases b <;> simp [App.increase_update_delay, App.decrease_update_delay] <;> omega
  have main : ∀ (bs : List Bool) (t : App),
      250000000 ≤ t.update_interval → t.update_interval ≤ 10000000000 →
      250000000 ≤ (applyDelays bs t).update_interval ∧
        (applyDelays bs t).update_interval ≤ 10000000000 := by
    intro bs
    induction bs with
    | nil => intro t h1 h2; exact ⟨h1, h2⟩
    | cons b bs ih =>
        intro t h1 h2
        have hb := step t h1 h2 b
        exact ih _ hb.1 hb.2
  have interval_only : ∀ (bs : List Bool) (t : App),
      (applyDelays bs t).update_interval =
        bs.foldl (fun i b => if b then min (i * 2) 10000000000
                             else max (i / 2) 250000000) t.update_interval := by
    intro bs
    induction bs with
    | nil => intro t; rfl
    | cons b bs ih =>
        intro t
        cases b
        · show (applyDelays bs t.decrease_update_delay).update_interval = _
          rw [ih]; rfl
        · show (applyDelays bs t.increase_update_delay).update_interval = _
          rw [ih]; rfl
  refine ⟨fun bs => main bs s h.1 h.2, fun h1000 => ⟨?_, fun n => (main _ s h.1 h.2).1⟩⟩
  rw [interval_only, h1000]
  decide

/-- C8 witness: the default interval 1000 ms is in bounds; five increases
give exactly 10 s and three decreases stay at or above 250 ms. -/
theorem update_interval_bounds_witness :
    (250000000 ≤ App.default.update_interval ∧
      App.default.update_interval ≤ 10000000000) ∧
    (applyDelays [true, true, true, true, true] App.default).update_interval =
      10000000000 ∧
    250000000 ≤ (applyDelays (List.replicate 3 false) App.default).update_interval :=
  have h := update_interval_bounds App.default ⟨by decide, by decide⟩
  ⟨⟨by decide, by decide⟩, (h.2 rfl).1, (h.2 rfl).2 3⟩

/-- A fixed random oracle, used in concrete evaluations. -/
def oracle0 : Oracle where
  coreChange := fun _ => 0
  coreUp := fun _ => true
  memChange := 0
  memUp := true
  rxRand := 0
  txRand := 0
  procCpuChange := fun _ => 0
  procCpuUp := fun _ => true
  procMemChange := fun _ => 0
  procMemUp := fun _ => true

/-- C7: when the gate fails — paused, or less than update_interval elapsed
since last_update — update_metrics is a complete no-op (snapshot,
histories and last_update all unchanged, stated as state equality), and
with paused = true any sequence of tick invocations leaves the state
unchanged. -/
theorem tick_gate_noop (s : App) :
    (∀ (now : Nat) (o : Oracle),
      s.paused = true ∨ now - s.last_update < s.update_interval →
      App.update_metrics now o s = s) ∧
    (s.paused = true → ∀ ticks : List (Nat × Oracle), applyTicks ticks s = s) := by
  have h1 : ∀ (now : Nat) (o : Oracle),
      s.paused = true ∨ now - s.last_update < s.update_interval →
      App.update_metrics now o s = s := by
    intro now o h
    unfold App.update_metrics
    rcases h with h | h <;> simp [h]
  refine ⟨h1, fun hp ticks => ?_⟩
  induction ticks with
  | nil => rfl
  | cons tk ticks ih =>
      show applyTicks ticks (App.update_metrics tk.1 tk.2 s) = s
      rw [h1 tk.1 tk.2 (Or.inl hp)]
      exact ih

/-- C7 witness: a paused default state survives two tick invocations
unchanged. -/
theorem tick_gate_noop_witness :
    ({ App.default with paused := true } : App).paused = true ∧
    applyTicks [(5000000000, oracle0), (9000000000, oracle0)]
        { App.default with paused := true } =
      { App.default with paused := true } :=
  ⟨rfl, (tick_gate_noop _).2 rfl _⟩

/-- C3 (amended): update_metrics never re-clamps the selection state: it
leaves selected_process and process_scroll_offset unchanged on every tick,
accepted or not, and it never changes the length of the process list — the
defensive clamping the claim describes does not exist in the code. -/
theorem update_metrics_leaves_selection (now : Nat) (o : Oracle) (s : App) :
    (App.update_metrics now o s).selected_process = s.selected_process ∧
    (App.update_metrics now o s).process_scroll_offset = s.process_scroll_offset ∧
    (App.update_metrics now o s).metrics.processes.length =
      s.metrics.processes.length := by
  unfold App.update_metrics
  split
  · exact ⟨rfl, rfl, rfl⟩
  · refine ⟨rfl, rfl, ?_⟩
    simp [App.sort_processes, length_sortedProcs, length_mapIdxFrom]

/-- A malformed state: the process list is empty while selected_process
is 5 and process_scroll_offset is 3, with the gate otherwise open. -/
def staleApp : App :=
  { App.default with
      selected_process := 5
      process_scroll_offset := 3
      metrics := { SystemInfo.default with processes := [] } }

/-- C3 counterexample: an accepted tick on a state whose process list is
empty while selected_process = 5 and process_scroll_offset = 3 leaves both
at their stale values instead of clamping them into the valid range. -/
theorem update_metrics_no_reclamp :
    staleApp.paused = false ∧
    staleApp.update_interval ≤ 2000000000 - staleApp.last_update ∧
    (App.update_metrics 2000000000 oracle0 staleApp).metrics.processes.length = 0 ∧
    (App.update_metrics 2000000000 oracle0 staleApp).selected_process = 5 ∧
    (App.update_metrics 2000000000 oracle0 staleApp).process_scroll_offset = 3 := by
  refine ⟨rfl, by decide, rfl, rfl, rfl⟩

/-- Fixed history-buffer lengths of the default sizing: 12 for CPU and
memory history, 9 for the network histories. -/
def HistLens (s : App) : Prop :=
  s.metrics.cpu_history.length = 12 ∧
  s.metrics.memory_history.length = 12 ∧
  s.metrics.net_rx_history.length = 9 ∧
  s.metrics.net_tx_history.length = 9

instance (s : App) : Decidable (HistLens s) := by
  unfold HistLens
  infer_instance

theorem histLens_update (now : Nat) (o : Oracle) (s : App) (h : HistLens s) :
    HistLens (App.update_metrics now o s) := by
  obtain ⟨hc, hm, hr, ht⟩ := h
  unfold App.update_metrics
  split
  · exact ⟨hc, hm, hr, ht⟩
  · refine ⟨?_, ?_, ?_, ?_⟩ <;>
      · simp [App.sort_processes, HistLens, List.length_tail, hc, hm, hr, ht]

/-- C4: after any number of ticks from the default state every history
buffer keeps its configured fixed length (12 for CPU and memory history, 9
for the network histories); each accepted tick evicts the oldest element
and appends the newly computed value, and the last element equals the
value just pushed: the aggregate CPU usage, the truncated memory
percentage, total_rx and total_tx respectively. -/
theorem history_buffers_invariant (ticks : List (Nat × Oracle)) :
    HistLens (applyTicks ticks App.default) ∧
    (∀ (now : Nat) (o : Oracle) (s : App),
      s.paused = false → s.update_interval ≤ now - s.last_update →
      (App.update_metrics now o s).metrics.cpu_history =
        s.metrics.cpu_history.tail ++
          [(App.update_metrics now o s).metrics.cpu_total_usage] ∧
      (App.update_metrics now o s).metrics.memory_history =
        s.metrics.memory_history.tail ++
          [(App.update_metrics now o s).metrics.memory_used * 100 /
            (App.update_metrics now o s).metrics.memory_total] ∧
      (App.update_metrics now o s).metrics.net_rx_history =
        s.metrics.net_rx_history.tail ++
          [(App.update_metrics now o s).metrics.total_rx] ∧
      (App.update_metrics now o s).metrics.net_tx_history =
        s.metrics.net_tx_history.tail ++
          [(App.update_metrics now o s).metrics.total_tx] ∧
      (App.update_metrics now o s).metrics.cpu_history.getLast? =
        some (App.update_metrics now o s).metrics.cpu_total_usage ∧
      (App.update_metrics now o s).metrics.memory_history.getLast? =
        some ((App.update_metrics now o s).metrics.memory_used * 100 /
          (App.update_metrics now o s).metrics.memory_total) ∧
      (App.update_metrics now o s).metrics.net_rx_history.getLast? =
        some (App.update_metrics now o s).metrics.total_rx ∧
      (App.update_metrics now o s).metrics.net_tx_history.getLast? =
        some (App.update_metrics now o s).metrics.total_tx) := by
  constructor
  · have part1 : ∀ (ts : List (Nat × Oracle)) (t : App),
        HistLens t → HistLens (applyTicks ts t) := by
      intro ts
      induction ts with
      | nil => intro t ht; exact ht
      | cons tk ts ih => intro t ht; exact ih _ (histLens_update tk.1 tk.2 t ht)
    exact part1 ticks App.default ⟨rfl, rfl, rfl, rfl⟩
  · intro now o s hp hi
    have hcond : ¬((s.paused || decide (now - s.last_update < s.update_interval)) = true) := by
      rw [hp]
      simp only [Bool.false_or, decide_eq_true_eq]
      omega
    unfold App.update_metrics
    rw [if_neg hcond]
    refine ⟨rfl, rfl, rfl, rfl, ?_, ?_, ?_, ?_⟩ <;>
      · dsimp only [App.sort_processes]
        exact List.getLast?_concat _

/-- C4 witness: the default state has the configured lengths, the gate
passes at time 2 s, the last CPU-history element after that tick is the
new aggregate CPU usage, and lengths persist after the tick. -/
theorem history_buffers_invariant_witness :
    HistLens App.default ∧ App.default.paused = false ∧
    App.default.update_interval ≤ 2000000000 - App.default.last_update ∧
    (App.update_metrics 2000000000 oracle0 App.default).metrics.cpu_history.getLast? =
      some (App.update_metrics 2000000000 oracle0 App.default).metrics.cpu_total_usage ∧
    HistLens (applyTicks [(2000000000, oracle0)] App.default) := by
  have h := history_buffers_invariant [(2000000000, oracle0)]
  have h2 := h.2 2000000000 oracle0 App.default rfl (by decide)
  exact ⟨⟨rfl, rfl, rfl, rfl⟩, rfl, by decide, h2.2.2.2.2.1, h.1⟩

/-- C10: after an accepted tick the simulated metrics respect their clamp
bounds: every per-core CPU usage is at most 100, memory_used is at most
memory_total, total_rx at most 5000, total_tx at most 2500, and every
process has cpu_usage in [0, 100] and memory_usage at most 2000. -/
theorem update_metrics_bounded (now : Nat) (o : Oracle) (s : App)
    (hp : s.paused = false) (hi : s.update_interval ≤ now - s.last_update) :
    (∀ u ∈ (App.update_metrics now o s).metrics.cpu_usage_per_core, u ≤ 100) ∧
    (App.update_metrics now o s).metrics.memory_used ≤
      (App.update_metrics now o s).metrics.memory_total ∧
    (App.update_metrics now o s).metrics.total_rx ≤ 5000 ∧
    (App.update_metrics now o s).metrics.total_tx ≤ 2500 ∧
    (∀ p ∈ (App.update_metrics now o s).metrics.processes,
      0 ≤ p.cpu_usage ∧ p.cpu_usage ≤ 100 ∧ p.memory_usage ≤ 2000) := by
  have hcond : ¬((s.paused || decide (now - s.last_update < s.update_interval)) = true) := by
    rw [hp]
    simp only [Bool.false_or, decide_eq_true_eq]
    omega
  unfold App.update_metrics
  rw [if_neg hcond]
  refine ⟨?_, ?_, ?_, ?_, ?_⟩
  · intro u hu
    dsimp only [App.sort_processes] at hu
    obtain ⟨j, a, _, rfl⟩ := mem_mapIdxFrom hu
    unfold clampInt
    omega
  · dsimp only [App.sort_processes]
    unfold clampInt
    omega
  · dsimp only [App.sort_processes]
    unfold clampInt
    omega
  · dsimp only [App.sort_processes]
    unfold clampInt
    omega
  · intro p hmem
    dsimp only [App.sort_processes] at hmem
    rw [mem_sortedProcs] at hmem
    obtain ⟨j, a, _, rfl⟩ := mem_mapIdxFrom hmem
    refine ⟨le_max_left _ _, max_le (by norm_num) (min_le_right _ _), ?_⟩
    dsimp only
    unfold clampInt
    omega

/-- C10 witness: the gate passes for the default state at time 2 s and the
bounds hold for the resulting state. -/
theorem update_metrics_bounded_witness :
    App.default.paused = false ∧
    App.default.update_interval ≤ 2000000000 - App.default.last_update ∧
    (∀ u ∈ (App.update_metrics 2000000000 oracle0 App.default).metrics.cpu_usage_per_core,
      u ≤ 100) ∧
    (App.update_metrics 2000000000 oracle0 App.default).metrics.total_rx ≤ 5000 :=
  have h := update_metrics_bounded 2000000000 oracle0 App.default rfl (by decide)
  ⟨rfl, by decide, h.1, h.2.2.1⟩

theorem scrollInv_step (op : ScrollOp) (s : App)
    (hview : s.current_view = View.Process)
    (hL : 1 ≤ s.metrics.processes.length)
    (hV : 1 ≤ s.max_processes)
    (h : ScrollInv s) :
    ScrollInv (applyScroll op s) ∧
    (applyScroll op s).current_view = View.Process ∧
    (applyScroll op s).metrics = s.metrics ∧
    (applyScroll op s).max_processes = s.max_processes := by
  obtain ⟨h1, h2, h3, h4⟩ := h
  cases op <;>
    simp only [applyScroll, App.scroll_down, App.scroll_up, App.scroll_page_down,
      App.scroll_page_up, App.scroll_top, App.scroll_bottom, hview] <;>
    (try split_ifs) <;>
    refine ⟨?_, ?_, ?_, ?_⟩ <;>
    first
      | rfl
      | trivial
      | exact hview
      | (unfold ScrollInv; (try dsimp only); omega)

/-- C1: in the Process view, for a non-empty process list and a positive
viewport, any sequence of scroll operations keeps selected_process inside
[0, L-1], process_scroll_offset inside [0, max(0, L-V)], and the selection
inside the visible window offset ≤ selected < offset + V. -/
theorem scroll_ops_selection_bounds (ops : List ScrollOp) (s : App)
    (hview : s.current_view = View.Process)
    (hL : 1 ≤ s.metrics.processes.length)
    (hV : 1 ≤ s.max_processes)
    (h : ScrollInv s) :
    ScrollInv (applyScrollSeq ops s) := by
  induction ops generalizing s with
  | nil => exact h
  | cons op ops ih =>
      have step := scrollInv_step op s hview hL hV h
      show ScrollInv (applyScrollSeq ops (applyScroll op s))
      exact ih (applyScroll op s) step.2.1 (by rw [step.2.2.1]; exact hL)
        (by rw [step.2.2.2]; exact hV) step.1

/-- The default state moved to the Process view. -/
def procViewApp : App :=
  { App.default with current_view := View.Process }

/-- C1 witness: the Process-view default state (10 processes, viewport 20)
satisfies the invariant and keeps satisfying it after a concrete scroll
sequence. -/
theorem scroll_ops_selection_bounds_witness :
    (procViewApp.current_view = View.Process ∧
      1 ≤ procViewApp.metrics.processes.length ∧
      1 ≤ procViewApp.max_processes ∧ ScrollInv procViewApp) ∧
    ScrollInv (applyScrollSeq
      [ScrollOp.down, ScrollOp.down, ScrollOp.bottom, ScrollOp.pageUp,
       ScrollOp.up, ScrollOp.pageDown, ScrollOp.top] procViewApp) :=
  ⟨⟨rfl, by decide, by decide, by decide⟩,
    scroll_ops_selection_bounds _ procViewApp rfl (by decide) (by decide) (by decide)⟩

/-- Two processes that differ only in pid and share the same cpu_usage. -/
def procDupA : ProcessInfo :=
  { pid := 1, ppid := 0, name := "a", command := "c", full_command := "c f",
    user := "u", cpu_usage := 5, memory_usage := 10, memory_percent := 0,
    state := .Running, priority := 0, nice := 0, threads := 1,
    start_time := "t", uptime := 0, read_speed := 0, write_speed := 0 }

/-- Second process of the duplicate-cpu pair. -/
def procDupB : ProcessInfo :=
  { procDupA with pid := 2 }

/-- A state sorting by Cpu with sort_reverse = false over the
duplicate-cpu pair. -/
def cpuDupApp : App :=
  { App.default with
      process_sort := ProcessSort.Cpu
      sort_reverse := false
      metrics := { SystemInfo.default with processes := [procDupA, procDupB] } }

/-- C2 counterexample: with sort key Cpu and sort_reverse = false, the
final whole-list reversal of sort_processes swaps the two processes with
identical cpu_usage, so the relative input order of duplicates is not
preserved for both values of sort_reverse. -/
theorem sort_processes_unstable_reversed :
    procDupA.cpu_usage = procDupB.cpu_usage ∧
    procDupA ≠ procDupB ∧
    cpuDupApp.metrics.processes = [procDupA, procDupB] ∧
    (App.sort_processes cpuDupApp).metrics.processes = [procDupB, procDupA] := by
  refine ⟨rfl, by decide, rfl, by decide⟩

/-- C2 (amended): sort_processes is stable for equal keys whenever
sort_reverse is true, i.e. when the final whole-list reversal is not
applied: any two processes with identical sort-key values (the key
relation holds both ways) that appear in order in the input appear in the
same order in the output; with sort_reverse = false the reversal inverts
the relative order of equal-key processes, as the counterexample shows. -/
theorem sort_processes_stable (s : App) (a b : ProcessInfo)
    (hrev : s.sort_reverse = true)
    (hab : procLE s.process_sort a b = true)
    (hba : procLE s.process_sort b a = true)
    (hsub : [a, b].Sublist s.metrics.processes) :
    [a, b].Sublist (App.sort_processes s).metrics.processes := by
  unfold App.sort_processes sortedProcs
  simp only [hrev, Bool.not_true, Bool.false_eq_true, if_false]
  exact List.pair_sublist_insertionSort hab hsub

/-- C2 witness: the duplicate-cpu pair keeps its order under the Cpu sort
with sort_reverse = true. -/
theorem sort_processes_stable_witness :
    (({ cpuDupApp with sort_reverse := true } : App).sort_reverse = true ∧
      procLE ({ cpuDupApp with sort_reverse := true } : App).process_sort
        procDupA procDupB = true ∧
      procLE ({ cpuDupApp with sort_reverse := true } : App).process_sort
        procDupB procDupA = true ∧
      [procDupA, procDupB].Sublist
        ({ cpuDupApp with sort_reverse := true } : App).metrics.processes) ∧
    [procDupA, procDupB].Sublist
      (App.sort_processes { cpuDupApp with sort_reverse := true }).metrics.processes :=
  ⟨⟨rfl, by decide, by decide, List.Sublist.refl _⟩,
    sort_processes_stable { cpuDupApp with sort_reverse := true } procDupA procDupB
      rfl (by decide) (by decide) (List.Sublist.refl _)⟩

end XTop
